import Mathlib

/-!
Verification of the hybrid persistence variant of the study-portal backend
(the MongoDB primary plus JSON-file fallback store with background resync).

The embedding models the data-access layer as pure state transformers over a
`SysState` carrying the Primary Store content (`mongo`), the parsed content of
the on-disk fallback snapshot file (`fallback`), and the process-wide
reachability flag (`isMongoConnected`).  Each Primary Store operation that can
fail at run time (network error, timeout) takes an explicit `Bool` parameter
saying whether that particular call fails; the filesystem writes of the local
snapshot are modelled as reliable state updates (the local store is the
durability floor).  `mongoose.connection.readyState === 1` and the manual
`isMongoConnected` flag are both modelled by the single reachability flag.
-/

namespace StudyPortal

/-- The metadata supplied by the upload route (`pdfData` in the source):
everything of a record except the writer-assigned `id` and the
creation timestamp. -/
structure PdfData where
  name : String
  displayName : String
  filename : String
  path : String
  type : String
  icon : String
  color : String
deriving DecidableEq, Repr

/-- One document record, as stored in either store.  In the Primary Store the
key field `_id` is set to the same value as `id`, so a single `id` field
models both. -/
structure Pdf where
  id : String
  data : PdfData
  dateAdded : Nat
deriving DecidableEq, Repr

/-- Parsed content of the fallback snapshot file
(`{ pdfs: [...], visits: n, lastUpdated: ... }`; the `lastUpdated` timestamp
is write-only in the source and not modelled). -/
structure FallbackDB where
  pdfs : List Pdf
  visits : Nat
deriving DecidableEq, Repr

/-- The process-wide state: Primary Store content, fallback snapshot content,
and the reachability flag. -/
structure SysState where
  mongo : List Pdf
  fallback : FallbackDB
  isMongoConnected : Bool
deriving DecidableEq, Repr

/-- The initial fallback database content (`initializeFallbackDB`), also the
value `readFallbackDB` substitutes for a corrupt snapshot. -/
def emptyFallbackDB : FallbackDB := { pdfs := [], visits := 0 }

/-- `readFallbackDB`: the outcome of `fs.readFileSync` + `JSON.parse` is an
`Except` (a missing file was just initialized, so it parses as the empty DB);
the `catch` branch turns any read/parse error into `{ pdfs: [], visits: 0 }`.
The function is total: no error escapes to the caller. -/
def readFallbackDB : Except String FallbackDB → FallbackDB
  | .ok db => db
  | .error _ => emptyFallbackDB

/-- `writeFallbackDB(data)`: rewrite the snapshot file with `data`
(the `lastUpdated` stamp it also writes is not modelled). -/
def writeFallbackDB (data : FallbackDB) (s : SysState) : SysState :=
  { s with fallback := data }

/-- The `fallbackData.pdfs.map(pdf => ({...pdf, _id: pdf.id}))` step of
`syncToMongoDB`: every field is kept and the Primary Store key is set to the
record's own `id`, which in this representation is the identity. -/
def toMongoPdf (p : Pdf) : Pdf :=
  { id := p.id, data := p.data, dateAdded := p.dateAdded }

/-- `syncToMongoDB(fallbackData)`: when the Primary Store is reachable and the
snapshot passed in holds at least one record, run `PDF.deleteMany({})`, then
`PDF.insertMany` of the snapshot records keyed by their existing ids, then
clear the fallback file (keeping only the snapshot's visit counter).  The two
Primary Store calls can each fail; the surrounding `catch` only logs, so on
failure the state reached so far is kept (a failed `insertMany` leaves the
Primary Store already emptied by `deleteMany`) and the fallback file is not
cleared.  `s.fallback` is the disk state at the time the final write happens,
which may differ from the `fallbackData` snapshot. -/
def syncToMongoDB (fallbackData : FallbackDB) (s : SysState)
    (deleteFails insertFails : Bool) : SysState :=
  if s.isMongoConnected ∧ 0 < fallbackData.pdfs.length then
    if deleteFails then s
    else
      let s1 : SysState := { s with mongo := [] }
      if insertFails then s1
      else
        writeFallbackDB { pdfs := [], visits := fallbackData.visits }
          { s1 with mongo := fallbackData.pdfs.map toMongoPdf }
  else s

/-- `connectMongoDB`: attempt the connection; on failure set the flag false.
On success set the flag true, read the fallback file, and when it holds
records run `syncToMongoDB` on it.  Returns the success boolean together with
the new state. -/
def connectMongoDB (s : SysState)
    (connectFails deleteFails insertFails : Bool) : Bool × SysState :=
  if connectFails then (false, { s with isMongoConnected := false })
  else
    let s1 : SysState := { s with isMongoConnected := true }
    if 0 < s1.fallback.pdfs.length then
      (true, syncToMongoDB s1.fallback s1 deleteFails insertFails)
    else (true, s1)

/-- The optional `type` filter of `getPDFs` (a Mongo query `{type}` on the
primary branch, an array `filter` on the fallback branch). -/
def filterByType (ty : Option String) (l : List Pdf) : List Pdf :=
  match ty with
  | none => l
  | some t => l.filter (fun p => p.data.type == t)

/-- Descending insertion into a list sorted by `dateAdded` (newest first). -/
def insertByDate (p : Pdf) : List Pdf → List Pdf
  | [] => [p]
  | q :: rest =>
    if q.dateAdded ≤ p.dateAdded then p :: q :: rest
    else q :: insertByDate p rest

/-- The `dateAdded`-descending sort used by both read branches
(`.sort({dateAdded: -1})` on the primary, the comparator
`(a, b) => new Date(b.dateAdded) - new Date(a.dateAdded)` on the fallback). -/
def sortByDateDesc : List Pdf → List Pdf
  | [] => []
  | p :: rest => insertByDate p (sortByDateDesc rest)

/-- `getPDFs(type?)`: when the flag is set, query the Primary Store; on query
failure flip the flag to false and fall through to the fallback branch; when
the flag is clear read the fallback file.  Both branches filter by the
optional type and sort newest-first; no branch surfaces an error. -/
def getPDFs (ty : Option String) (s : SysState) (queryFails : Bool) :
    List Pdf × SysState :=
  if s.isMongoConnected then
    if queryFails then
      let s1 : SysState := { s with isMongoConnected := false }
      (sortByDateDesc (filterByType ty s1.fallback.pdfs), s1)
    else (sortByDateDesc (filterByType ty s.mongo), s)
  else (sortByDateDesc (filterByType ty s.fallback.pdfs), s)

/-- The `{materialCount, impMaterialCount, totalCount}` record returned by
`getCounts`. -/
structure Counts where
  materialCount : Nat
  impMaterialCount : Nat
  totalCount : Nat
deriving DecidableEq, Repr

/-- `countDocuments({type: t})` on a store content. -/
def countType (t : String) (l : List Pdf) : Nat :=
  (l.filter (fun p => p.data.type == t)).length

/-- `getCounts()`: count `material` and `imp-material` records in the Primary
Store when reachable (flipping the flag and falling back on failure), else in
the fallback file; `totalCount` is the sum of the two counts in every
branch. -/
def getCounts (s : SysState) (countFails : Bool) : Counts × SysState :=
  if s.isMongoConnected then
    if countFails then
      let s1 : SysState := { s with isMongoConnected := false }
      ({ materialCount := countType "material" s1.fallback.pdfs,
         impMaterialCount := countType "imp-material" s1.fallback.pdfs,
         totalCount := countType "material" s1.fallback.pdfs +
           countType "imp-material" s1.fallback.pdfs }, s1)
    else
      ({ materialCount := countType "material" s.mongo,
         impMaterialCount := countType "imp-material" s.mongo,
         totalCount := countType "material" s.mongo +
           countType "imp-material" s.mongo }, s)
  else
    ({ materialCount := countType "material" s.fallback.pdfs,
       impMaterialCount := countType "imp-material" s.fallback.pdfs,
       totalCount := countType "material" s.fallback.pdfs +
         countType "imp-material" s.fallback.pdfs }, s)

/-- `addPDF(pdfData)`: build the new record with `id = Date.now().toString()`
and `dateAdded = now`, append it to the fallback file first, then, when the
flag is set, mirror it to the Primary Store under the same `_id` (the schema
default fills the mirror's `dateAdded` with the same clock value).  A mirror
failure is only logged: the flag is left unchanged and the already-saved local
record is returned. -/
def addPDF (pdfData : PdfData) (now : Nat) (s : SysState) (saveFails : Bool) :
    Pdf × SysState :=
  let newPdf : Pdf := { id := toString now, data := pdfData, dateAdded := now }
  let s1 := writeFallbackDB
    { s.fallback with pdfs := s.fallback.pdfs ++ [newPdf] } s
  if s1.isMongoConnected then
    if saveFails then (newPdf, s1)
    else
      (newPdf,
       { s1 with mongo :=
           s1.mongo ++ [{ id := newPdf.id, data := pdfData, dateAdded := now }] })
  else (newPdf, s1)

/-- The `findIndex` + `splice(pdfIndex, 1)` step of `deletePDF`: remove the
first record whose `id` matches, leave the list unchanged when none does. -/
def removeFirstById (pdfId : String) : List Pdf → List Pdf
  | [] => []
  | p :: rest =>
    if p.id == pdfId then rest else p :: removeFirstById pdfId rest

/-- `deletePDF(pdfId)`: remove the first matching record from the fallback
file (the associated payload unlink is a filesystem effect outside the model),
then, when the flag is set, run `PDF.findByIdAndDelete(pdfId)` on the Primary
Store (a no-op when the id is absent there); a Primary Store failure is only
logged and leaves the flag unchanged. -/
def deletePDF (pdfId : String) (s : SysState) (mongoDeleteFails : Bool) :
    SysState :=
  let s1 := writeFallbackDB
    { s.fallback with pdfs := removeFirstById pdfId s.fallback.pdfs } s
  if s1.isMongoConnected then
    if mongoDeleteFails then s1
    else { s1 with mongo := s1.mongo.filter (fun p => p.id != pdfId) }
  else s1

/-- The HTTP response of the delete route: status code and the `success`
field of the JSON body. -/
structure DeleteResponse where
  status : Nat
  success : Bool
deriving DecidableEq, Repr

/-- The `DELETE /api/admin/pdfs/:id` handler: `await deletePDF(id)` then
respond `200 {success: true}`; `deletePDF` itself never rejects in the model,
so the handler always reports success, whether or not the id existed. -/
def deleteRoute (pdfId : String) (s : SysState) (mongoDeleteFails : Bool) :
    DeleteResponse × SysState :=
  let s1 := deletePDF pdfId s mongoDeleteFails
  ({ status := 200, success := true }, s1)

/-- The number of records whose type is `material` or `imp-material`: the
population `getCounts` draws its `totalCount` from. -/
def countMaterialLike (l : List Pdf) : Nat :=
  (l.filter (fun p =>
    p.data.type == "material" || p.data.type == "imp-material")).length

/-! ### Concrete sample data for counterexamples and witnesses -/

/-- A sample upload payload. -/
def sampleData : PdfData :=
  { name := "unit1.pdf", displayName := "Unit 1", filename := "unit1.pdf",
    path := "/uploads/unit1.pdf", type := "material", icon := "fa-book",
    color := "#6a11cb" }

/-- A sample record with id `"100"`. -/
def samplePdfA : Pdf := { id := "100", data := sampleData, dateAdded := 100 }

/-- A sample record with id `"200"`, distinct from `samplePdfA`. -/
def samplePdfB : Pdf := { id := "200", data := sampleData, dateAdded := 200 }

/-- A state where the Primary Store holds a record that is absent from the
pending fallback set, with the Primary Store reachable. -/
def reconcileLossState : SysState :=
  { mongo := [samplePdfA], fallback := { pdfs := [samplePdfB], visits := 0 },
    isMongoConnected := true }

/-- A state where a synced record sits in both stores while the Primary Store
is unreachable. -/
def resurrectionState : SysState :=
  { mongo := [samplePdfA], fallback := { pdfs := [samplePdfA], visits := 0 },
    isMongoConnected := false }

/-- A reachable state used to exercise the mirror-write and primary-delete
failure paths. -/
def mirrorFailState : SysState :=
  { mongo := [], fallback := emptyFallbackDB, isMongoConnected := true }

/-- The disk state of the fallback file at the moment the sync writes it back:
`samplePdfB` was appended after the reconciliation snapshot was read. -/
def midSyncState : SysState :=
  { mongo := [], fallback := { pdfs := [samplePdfA, samplePdfB], visits := 0 },
    isMongoConnected := true }

/-- The reconciliation snapshot read before `samplePdfB` was appended. -/
def midSyncSnapshot : FallbackDB := { pdfs := [samplePdfA], visits := 0 }

/-- A state whose local store does not contain the id `"999"`. -/
def deleteAbsentState : SysState :=
  { mongo := [samplePdfA], fallback := { pdfs := [samplePdfA], visits := 0 },
    isMongoConnected := false }

/-- An unreachable-primary state with an empty local store, used as the
starting point of outage scenarios. -/
def outageState : SysState :=
  { mongo := [], fallback := emptyFallbackDB, isMongoConnected := false }

/-! ### Helper lemmas -/

theorem insertByDate_perm (p : Pdf) (l : List Pdf) :
    List.Perm (insertByDate p l) (p :: l) := by
  induction l with
  | nil => exact List.Perm.refl _
  | cons q rest ih =>
    by_cases h : q.dateAdded ≤ p.dateAdded
    · rw [insertByDate, if_pos h]
    · rw [insertByDate, if_neg h]
      exact (ih.cons q).trans (List.Perm.swap p q rest)

theorem sortByDateDesc_perm (l : List Pdf) :
    List.Perm (sortByDateDesc l) l := by
  induction l with
  | nil => exact List.Perm.refl _
  | cons p rest ih =>
    exact (insertByDate_perm p (sortByDateDesc rest)).trans (ih.cons p)

theorem mem_sortByDateDesc {q : Pdf} {l : List Pdf} :
    q ∈ sortByDateDesc l ↔ q ∈ l :=
  (sortByDateDesc_perm l).mem_iff

theorem map_id_sortByDateDesc_mem {x : String} {l : List Pdf} :
    x ∈ (sortByDateDesc l).map Pdf.id ↔ x ∈ l.map Pdf.id :=
  ((sortByDateDesc_perm l).map Pdf.id).mem_iff

theorem mem_of_mem_filterByType {ty : Option String} {p : Pdf} {l : List Pdf}
    (h : p ∈ filterByType ty l) : p ∈ l := by
  cases ty with
  | none => exact h
  | some t => exact (List.mem_filter.mp h).1

theorem toMongoPdf_eq (p : Pdf) : toMongoPdf p = p := rfl

theorem map_toMongoPdf (l : List Pdf) : l.map toMongoPdf = l := by
  induction l with
  | nil => rfl
  | cons p rest ih => rw [List.map_cons, toMongoPdf_eq, ih]

theorem length_filter_disjoint {α : Type} (p q : α → Bool) (l : List α)
    (h : ∀ a, p a = true → q a = false) :
    (l.filter p).length + (l.filter q).length =
      (l.filter (fun a => p a || q a)).length := by
  induction l with
  | nil => rfl
  | cons a rest ih =>
    cases hp : p a with
    | true =>
      have hq := h a hp
      simp only [List.filter, hp, hq, Bool.true_or, List.length_cons]
      omega
    | false =>
      cases hq : q a with
      | true =>
        simp only [List.filter, hp, hq, Bool.false_or, List.length_cons]
        omega
      | false =>
        simp only [List.filter, hp, hq, Bool.false_or]
        exact ih

theorem removeFirstById_of_forall_ne (pdfId : String) (l : List Pdf)
    (h : ∀ p ∈ l, p.id ≠ pdfId) : removeFirstById pdfId l = l := by
  induction l with
  | nil => rfl
  | cons q rest ih =>
    have hq : (q.id == pdfId) = false :=
      beq_eq_false_iff_ne.mpr (h q (List.mem_cons_self q rest))
    rw [removeFirstById, if_neg (by simp [hq])]
    rw [ih (fun p hp => h p (List.mem_cons_of_mem q hp))]

theorem removeFirstById_id_not_mem (pdfId : String) (l : List Pdf)
    (h : (l.map Pdf.id).Nodup) :
    pdfId ∉ (removeFirstById pdfId l).map Pdf.id := by
  induction l with
  | nil => simp [removeFirstById]
  | cons q rest ih =>
    rw [List.map_cons, List.nodup_cons] at h
    by_cases hq : q.id = pdfId
    · have hqb : (q.id == pdfId) = true := beq_iff_eq.mpr hq
      rw [removeFirstById, if_pos hqb]
      exact hq ▸ h.1
    · have hqb : (q.id == pdfId) = false := beq_eq_false_iff_ne.mpr hq
      rw [removeFirstById, if_neg (by simp [hqb])]
      rw [List.map_cons]
      simp only [List.mem_cons, not_or]
      exact ⟨fun hh => hq hh.symm, ih h.2⟩

theorem filter_id_not_mem (pdfId : String) (l : List Pdf) :
    pdfId ∉ (l.filter (fun p => p.id != pdfId)).map Pdf.id := by
  intro hmem
  rcases List.mem_map.mp hmem with ⟨p, hp, hid⟩
  exact bne_iff_ne.mp (List.mem_filter.mp hp).2 hid

theorem countType_sum (l : List Pdf) :
    countType "material" l + countType "imp-material" l = countMaterialLike l := by
  refine length_filter_disjoint _ _ l ?_
  intro p hp
  have hm : p.data.type = "material" := beq_iff_eq.mp hp
  rw [hm]
  decide

theorem getPDFs_id_not_mem {x : String} {ty : Option String} {s : SysState}
    {qf : Bool}
    (hm : s.isMongoConnected = true → qf = false → x ∉ s.mongo.map Pdf.id)
    (hf : x ∉ s.fallback.pdfs.map Pdf.id) :
    x ∉ (getPDFs ty s qf).1.map Pdf.id := by
  intro hx
  rcases List.mem_map.mp hx with ⟨p, hp, hpid⟩
  rw [getPDFs] at hp
  split at hp
  next hc =>
    split at hp
    next hqf =>
      exact hf (hpid ▸ List.mem_map_of_mem Pdf.id
        (mem_of_mem_filterByType (mem_sortByDateDesc.mp hp)))
    next hqf =>
      exact hm hc (Bool.not_eq_true qf ▸ hqf)
        (hpid ▸ List.mem_map_of_mem Pdf.id
          (mem_of_mem_filterByType (mem_sortByDateDesc.mp hp)))
  next hc =>
    exact hf (hpid ▸ List.mem_map_of_mem Pdf.id
      (mem_of_mem_filterByType (mem_sortByDateDesc.mp hp)))

theorem deletePDF_fallback (pdfId : String) (s : SysState) (mf : Bool) :
    (deletePDF pdfId s mf).fallback.pdfs =
      removeFirstById pdfId s.fallback.pdfs := by
  simp only [deletePDF, writeFallbackDB]
  split
  · split <;> rfl
  · rfl

theorem deletePDF_mongo (pdfId : String) (s : SysState) (mf : Bool) :
    (deletePDF pdfId s mf).mongo =
      (if s.isMongoConnected && !mf then
        s.mongo.filter (fun p => p.id != pdfId)
      else s.mongo) := by
  simp only [deletePDF, writeFallbackDB]
  cases hc : s.isMongoConnected <;> cases hmf : mf <;> simp [hc, hmf]

theorem deletePDF_flag (pdfId : String) (s : SysState) (mf : Bool) :
    (deletePDF pdfId s mf).isMongoConnected = s.isMongoConnected := by
  simp only [deletePDF, writeFallbackDB]
  split
  · split <;> rfl
  · rfl

/-! ### Claims -/

/-- Claim C3 (confirmed): while the Primary Store is unreachable, every
`addPDF` call succeeds — it returns the freshly built record, having appended
it to the Durable Local Store — and the added record is retrievable through
`getPDFs` immediately after the call returns.  The state `s` is arbitrary, so
this covers every call of an arbitrary sequence issued during the outage. -/
theorem addDocument_durable_under_outage (d : PdfData) (now : Nat)
    (s : SysState) (saveFails queryFails : Bool)
    (h : s.isMongoConnected = false) :
    (addPDF d now s saveFails).1 =
      { id := toString now, data := d, dateAdded := now } ∧
    (addPDF d now s saveFails).1 ∈
      (getPDFs none (addPDF d now s saveFails).2 queryFails).1 := by
  have hadd : addPDF d now s saveFails =
      ({ id := toString now, data := d, dateAdded := now },
       { s with fallback := { s.fallback with pdfs := s.fallback.pdfs ++
           [{ id := toString now, data := d, dateAdded := now }] } }) := by
    simp only [addPDF, writeFallbackDB]
    rw [if_neg (by simp [h])]
  rw [hadd]
  refine ⟨rfl, ?_⟩
  rw [getPDFs, if_neg (by simp [h])]
  simp [filterByType, mem_sortByDateDesc]

/-- Witness for C3: a concrete add during an outage, retrievable right
after. -/
theorem addDocument_durable_under_outage_witness :
    (addPDF sampleData 5 outageState false).1 =
      { id := toString 5, data := sampleData, dateAdded := 5 } ∧
    (addPDF sampleData 5 outageState false).1 ∈
      (getPDFs none (addPDF sampleData 5 outageState false).2 false).1 :=
  addDocument_durable_under_outage sampleData 5 outageState false false rfl

/-- Claim C4 (confirmed): `getPDFs` returns exactly the Primary Store's
(filtered) documents when the flag is set and the query succeeds, and exactly
the Durable Local Store's (filtered) documents otherwise — as a permutation,
since both branches re-sort newest-first — never surfacing an error; the flag
ends up set exactly when the primary branch was used successfully, and
neither store's content is modified by a read. -/
theorem getDocuments_fallback_read (s : SysState) (ty : Option String)
    (qf : Bool) :
    List.Perm (getPDFs ty s qf).1
      (filterByType ty
        (if s.isMongoConnected && !qf then s.mongo else s.fallback.pdfs)) ∧
    (getPDFs ty s qf).2.isMongoConnected = (s.isMongoConnected && !qf) ∧
    (getPDFs ty s qf).2.mongo = s.mongo ∧
    (getPDFs ty s qf).2.fallback = s.fallback := by
  cases hc : s.isMongoConnected <;> cases hqf : qf <;>
    simp only [getPDFs, hc, hqf, Bool.false_and, Bool.true_and, Bool.not_true,
      Bool.not_false, Bool.and_true, Bool.and_false, if_true, if_false,
      Bool.false_eq_true, Bool.true_eq_false, reduceIte] <;>
    refine ⟨sortByDateDesc_perm _, ?_, ?_, ?_⟩ <;> trivial

/-- Claim C7 (confirmed): a document added while the Primary Store is
unreachable keeps the id minted by the local append (`Date.now().toString()`),
and after a successful reconnection-triggered reconciliation the very same
record — same `id` — is present in the Primary Store: reconciliation reuses
the existing id instead of minting a new one. -/
theorem reconciliation_reuses_id (d : PdfData) (now : Nat) (s : SysState)
    (saveFails : Bool) (h : s.isMongoConnected = false) :
    (addPDF d now s saveFails).1.id = toString now ∧
    (addPDF d now s saveFails).1 ∈ (addPDF d now s saveFails).2.fallback.pdfs ∧
    (addPDF d now s saveFails).1 ∈
      (connectMongoDB (addPDF d now s saveFails).2 false false false).2.mongo := by
  have hadd : addPDF d now s saveFails =
      ({ id := toString now, data := d, dateAdded := now },
       { s with fallback := { s.fallback with pdfs := s.fallback.pdfs ++
           [{ id := toString now, data := d, dateAdded := now }] } }) := by
    simp only [addPDF, writeFallbackDB]
    rw [if_neg (by simp [h])]
  rw [hadd]
  refine ⟨rfl, by simp, ?_⟩
  rw [connectMongoDB, if_neg (by simp)]
  rw [if_pos (by simp)]
  simp only [syncToMongoDB]
  rw [if_pos (by simp)]
  simp [writeFallbackDB, map_toMongoPdf, toMongoPdf_eq]

/-- Witness for C7: a concrete offline add whose record lands in the Primary
Store under the same id after reconciliation. -/
theorem reconciliation_reuses_id_witness :
    (addPDF sampleData 5 outageState false).1.id = toString 5 ∧
    (addPDF sampleData 5 outageState false).1 ∈
      (addPDF sampleData 5 outageState false).2.fallback.pdfs ∧
    (addPDF sampleData 5 outageState false).1 ∈
      (connectMongoDB (addPDF sampleData 5 outageState false).2
        false false false).2.mongo :=
  reconciliation_reuses_id sampleData 5 outageState false rfl

/-- Claim C8 (confirmed): `readFallbackDB` is a total function — no outcome of
reading and parsing the snapshot file, including a read/parse error, escapes
to the caller — and it returns either the parsed content or, for a corrupt
snapshot, exactly the empty database. -/
theorem readAll_corruption_never_propagates (r : Except String FallbackDB) :
    readFallbackDB r = emptyFallbackDB ∨ Except.ok (readFallbackDB r) = r := by
  cases r with
  | ok db => exact Or.inr rfl
  | error e => exact Or.inl rfl

/-- Claim C10 (confirmed): in both the primary and the fallback branch of
`getCounts`, `totalCount` is `materialCount + impMaterialCount`, which equals
the number of records whose type is `material` or `imp-material` in the store
that was counted — records of any other type are excluded from the total. -/
theorem getCounts_total_is_sum (s : SysState) (cf : Bool) :
    (getCounts s cf).1.totalCount =
      (getCounts s cf).1.materialCount + (getCounts s cf).1.impMaterialCount ∧
    (getCounts s cf).1.totalCount =
      countMaterialLike
        (if s.isMongoConnected && !cf then s.mongo else s.fallback.pdfs) := by
  cases hc : s.isMongoConnected <;> cases hcf : cf <;>
    simp only [getCounts, hc, hcf, Bool.false_and, Bool.true_and,
      Bool.not_true, Bool.not_false, Bool.and_true, Bool.and_false,
      Bool.false_eq_true, Bool.true_eq_false, reduceIte] <;>
    exact ⟨by trivial, countType_sum _⟩

/-- Claim C1, counterexample: with the Primary Store reachable and holding
`samplePdfA` while `samplePdfB` is the only pending local record, a successful
reconciliation (`deleteMany` then `insertMany` of the snapshot) removes
`samplePdfA` from the Primary Store — a record that was in the Primary Store
before reconciliation is no longer there, refuting data-loss-free merging. -/
theorem reconciliation_loses_primary_record :
    samplePdfA ∈ reconcileLossState.mongo ∧
    samplePdfA ∉
      (syncToMongoDB reconcileLossState.fallback reconcileLossState
        false false).mongo := by
  decide

/-- Claim C1 (amended): a successful reconciliation replaces the Primary
Store's content with the snapshot's pending records: each pending record
appears exactly once (for a duplicate-free snapshot) and the local store is
cleared, so an immediate re-run is a no-op and cannot duplicate — but records
that were in the Primary Store and not in the snapshot are deleted rather
than retained. -/
theorem reconciliation_replaces_primary (s : SysState)
    (hc : s.isMongoConnected = true) (hne : s.fallback.pdfs ≠ [])
    (hnd : s.fallback.pdfs.Nodup) :
    (syncToMongoDB s.fallback s false false).mongo = s.fallback.pdfs ∧
    (∀ p ∈ s.fallback.pdfs,
      (syncToMongoDB s.fallback s false false).mongo.count p = 1) ∧
    (syncToMongoDB s.fallback s false false).fallback.pdfs = [] ∧
    syncToMongoDB (syncToMongoDB s.fallback s false false).fallback
        (syncToMongoDB s.fallback s false false) false false =
      syncToMongoDB s.fallback s false false := by
  have hlen : 0 < s.fallback.pdfs.length := List.length_pos.mpr hne
  have hsync : syncToMongoDB s.fallback s false false =
      { mongo := s.fallback.pdfs,
        fallback := { pdfs := [], visits := s.fallback.visits },
        isMongoConnected := s.isMongoConnected } := by
    rw [syncToMongoDB, if_pos ⟨hc, hlen⟩]
    simp [writeFallbackDB, map_toMongoPdf]
  rw [hsync]
  refine ⟨rfl, ?_, rfl, ?_⟩
  · intro p hp
    exact List.count_eq_one_of_mem hnd hp
  · rw [syncToMongoDB, if_neg (by simp)]

/-- Witness for the amended C1 at a concrete reachable state with one
pending record. -/
theorem reconciliation_replaces_primary_witness :
    (syncToMongoDB reconcileLossState.fallback reconcileLossState
        false false).mongo = reconcileLossState.fallback.pdfs ∧
    (∀ p ∈ reconcileLossState.fallback.pdfs,
      (syncToMongoDB reconcileLossState.fallback reconcileLossState
        false false).mongo.count p = 1) ∧
    (syncToMongoDB reconcileLossState.fallback reconcileLossState
        false false).fallback.pdfs = [] ∧
    syncToMongoDB
        (syncToMongoDB reconcileLossState.fallback reconcileLossState
          false false).fallback
        (syncToMongoDB reconcileLossState.fallback reconcileLossState
          false false) false false =
      syncToMongoDB reconcileLossState.fallback reconcileLossState
        false false :=
  reconciliation_replaces_primary reconcileLossState rfl
    (by decide) (by decide)

/-- Claim C2, counterexample: `samplePdfA` is synced (present in both stores)
and the Primary Store is down; `deletePDF` succeeds and removes it locally,
leaving the pending set empty, so the reconnect runs no reconciliation — and
the next `getPDFs`, now served by the Primary Store, includes the deleted id
again: the document is resurrected. -/
theorem deleted_document_resurrected :
    samplePdfA.id ∈
      ((getPDFs none
        (connectMongoDB (deletePDF samplePdfA.id resurrectionState false)
          false false false).2 false).1.map Pdf.id) := by
  decide

/-- Claim C2 (amended): after `deletePDF pdfId` the id is gone from the
Durable Local Store (given locally unique ids), and — provided the primary
delete actually ran whenever the Primary Store was reachable — no immediately
following `getPDFs` includes the id, from either branch.  The original claim's
unreachable-at-delete case does not hold: the primary copy is never removed
then, and the id reappears once reads come from the Primary Store again (see
the counterexample). -/
theorem delete_consistency_when_primary_delete_runs (s : SysState)
    (pdfId : String) (mf : Bool)
    (hnd : (s.fallback.pdfs.map Pdf.id).Nodup)
    (hmf : s.isMongoConnected = true → mf = false) :
    ∀ ty qf,
      pdfId ∉ ((getPDFs ty (deletePDF pdfId s mf) qf).1.map Pdf.id) := by
  intro ty qf
  refine getPDFs_id_not_mem ?_ ?_
  · intro hc hqf
    rw [deletePDF_mongo]
    have hcs : s.isMongoConnected = true := deletePDF_flag pdfId s mf ▸ hc
    rw [hcs, hmf hcs]
    simp only [Bool.not_false, Bool.and_true, if_true, Bool.true_and, reduceIte]
    exact filter_id_not_mem pdfId s.mongo
  · rw [deletePDF_fallback]
    exact removeFirstById_id_not_mem pdfId s.fallback.pdfs hnd

/-- Witness for the amended C2: deleting a synced record while the Primary
Store is reachable leaves no trace in a subsequent read. -/
theorem delete_consistency_when_primary_delete_runs_witness :
    samplePdfA.id ∉
      ((getPDFs none
        (deletePDF samplePdfA.id
          { mongo := [samplePdfA],
            fallback := { pdfs := [samplePdfA], visits := 0 },
            isMongoConnected := true } false) false).1.map Pdf.id) :=
  delete_consistency_when_primary_delete_runs
    { mongo := [samplePdfA],
      fallback := { pdfs := [samplePdfA], visits := 0 },
      isMongoConnected := true }
    samplePdfA.id false (by decide) (fun _ => rfl) none false

/-- Claim C5, counterexample: in a reachable state, a failing mirror write in
`addPDF` and a failing primary-side delete in `deletePDF` both leave the
reachability flag set — the write paths do not flip it to false as the claim
requires for all façade operations. -/
theorem failed_write_does_not_flip_flag :
    (addPDF sampleData 7 mirrorFailState true).2.isMongoConnected = true ∧
    (deletePDF "100" mirrorFailState true).isMongoConnected = true := by
  decide

/-- Claim C5 (amended): only the failing read operations flip the reachability
flag to false — a failing `getPDFs` query and a failing `getCounts` count do;
the mirror write in `addPDF` and the primary-side delete in `deletePDF` catch
and log their failure, leaving the flag unchanged (still true). -/
theorem failing_op_flag_discipline (s : SysState) (ty : Option String)
    (d : PdfData) (now : Nat) (pdfId : String)
    (h : s.isMongoConnected = true) :
    (getPDFs ty s true).2.isMongoConnected = false ∧
    (getCounts s true).2.isMongoConnected = false ∧
    (addPDF d now s true).2.isMongoConnected = true ∧
    (deletePDF pdfId s true).isMongoConnected = true := by
  refine ⟨?_, ?_, ?_, ?_⟩ <;>
    simp [getPDFs, getCounts, addPDF, deletePDF, writeFallbackDB, h]

/-- Witness for the amended C5 at a concrete reachable state. -/
theorem failing_op_flag_discipline_witness :
    (getPDFs none mirrorFailState true).2.isMongoConnected = false ∧
    (getCounts mirrorFailState true).2.isMongoConnected = false ∧
    (addPDF sampleData 7 mirrorFailState true).2.isMongoConnected = true ∧
    (deletePDF "100" mirrorFailState true).isMongoConnected = true :=
  failing_op_flag_discipline mirrorFailState none sampleData 7 "100" rfl

/-- Claim C6, counterexample: `samplePdfB` was appended to the fallback file
after the reconciliation snapshot (which holds only `samplePdfA`) was read;
the successful sync rewrites the fallback file to the empty set, so the
concurrent append does not remain pending — it is wiped along with the
snapshot records. -/
theorem concurrent_append_lost_by_sync :
    samplePdfB ∈ midSyncState.fallback.pdfs ∧
    samplePdfB ∉
      (syncToMongoDB midSyncSnapshot midSyncState false false).fallback.pdfs := by
  decide

/-- Claim C6 (amended): after a successful reconciliation batch the Durable
Local Store's record list is rewritten to the empty list — all records are
cleared, including any appended after the snapshot was read, which therefore
do not remain pending. -/
theorem sync_clears_local_store_entirely (snap : FallbackDB) (s : SysState)
    (hc : s.isMongoConnected = true) (hne : snap.pdfs ≠ []) :
    (syncToMongoDB snap s false false).fallback.pdfs = [] := by
  rw [syncToMongoDB, if_pos ⟨hc, List.length_pos.mpr hne⟩]
  rfl

/-- Witness for the amended C6 at the concrete mid-sync state. -/
theorem sync_clears_local_store_entirely_witness :
    (syncToMongoDB midSyncSnapshot midSyncState false false).fallback.pdfs =
      [] :=
  sync_clears_local_store_entirely midSyncSnapshot midSyncState rfl
    (by decide)

/-- Claim C9, counterexample: deleting the id `"999"`, absent from the local
store, still yields `200 {success: true}` — not the 404 failure the claim
requires. -/
theorem delete_absent_reports_success :
    ("999" ∉ deleteAbsentState.fallback.pdfs.map Pdf.id) ∧
    (deleteRoute "999" deleteAbsentState false).1.status = 200 ∧
    (deleteRoute "999" deleteAbsentState false).1.status ≠ 404 ∧
    (deleteRoute "999" deleteAbsentState false).1.success = true := by
  decide

/-- Claim C9 (amended): deleting an id absent from the local store reports
success (HTTP 200, `success: true`) rather than a 404 failure; the Durable
Local Store is left unchanged, while the primary-side delete is still
attempted when the Primary Store is reachable (removing any record under that
id there, a no-op when it is absent there too). -/
theorem delete_absent_id_success_local_unchanged (s : SysState)
    (pdfId : String) (mf : Bool)
    (h : ∀ p ∈ s.fallback.pdfs, p.id ≠ pdfId) :
    (deleteRoute pdfId s mf).1 = { status := 200, success := true } ∧
    (deleteRoute pdfId s mf).2.fallback = s.fallback ∧
    (deleteRoute pdfId s mf).2.mongo =
      (if s.isMongoConnected && !mf then
        s.mongo.filter (fun p => p.id != pdfId)
      else s.mongo) := by
  refine ⟨rfl, ?_, ?_⟩
  · have hpdfs : (deletePDF pdfId s mf).fallback.pdfs = s.fallback.pdfs := by
      rw [deletePDF_fallback, removeFirstById_of_forall_ne pdfId _ h]
    have hvis : (deletePDF pdfId s mf).fallback.visits = s.fallback.visits := by
      simp only [deletePDF, writeFallbackDB]
      split
      · split <;> rfl
      · rfl
    show (deletePDF pdfId s mf).fallback = s.fallback
    cases hfb : (deletePDF pdfId s mf).fallback
    cases hsb : s.fallback
    simp only [hfb, hsb] at hpdfs hvis
    rw [hpdfs, hvis]
  · exact deletePDF_mongo pdfId s mf

/-- Witness for the amended C9 at the concrete absent-id state. -/
theorem delete_absent_id_success_local_unchanged_witness :
    (deleteRoute "999" deleteAbsentState false).1 =
      { status := 200, success := true } ∧
    (deleteRoute "999" deleteAbsentState false).2.fallback =
      deleteAbsentState.fallback ∧
    (deleteRoute "999" deleteAbsentState false).2.mongo =
      (if deleteAbsentState.isMongoConnected && !false then
        deleteAbsentState.mongo.filter (fun p => p.id != "999")
      else deleteAbsentState.mongo) :=
  delete_absent_id_success_local_unchanged deleteAbsentState "999" false
    (by decide)

end StudyPortal
